import Mathlib

/-!
Shallow embedding of the loan-underwriting application
(`loan-underwriting-app`): the mock decision engine of `app.py`, the
multi-agent pipeline and its scoring-function fallback of
`agent_bricks_integration.py`, and the query-retry and analytics logic of
`databricks_connection.py`.  Python floats are modelled as rationals,
Python `None`/key-absence as `Option`, and exceptions as `Except`.
-/

namespace LoanApp

/-- The application fields consumed by the decision paths.  The Streamlit
form always supplies every key, so the `dict.get` defaults of the source
never fire and the fields are plain values here.  `debt_to_income` holds
the percentage value stored under the key `debt_to_income_ratio`. -/
structure ApplicationData where
  credit_score : ℚ
  annual_income : ℚ
  loan_amount : ℚ
  debt_to_income : ℚ
deriving Repr, DecidableEq

/-- Decision record returned by `create_mock_underwriting_decision` in
`app.py`.  `interest_rate` is `none` exactly when the source sets the
Python value `None`. -/
structure MockDecision where
  decision : String
  approved_amount : ℚ
  interest_rate : Option ℚ
  risk_score : ℚ
deriving Repr, DecidableEq

/-- The unclamped risk expression of `app.py` line 77:
`700 - credit_score + (debt_to_income * 2) + (loan_amount / income * 100 if income > 0 else 100)`. -/
def mockRiskScore (a : ApplicationData) : ℚ :=
  700 - a.credit_score + a.debt_to_income * 2 +
    (if 0 < a.annual_income then a.loan_amount / a.annual_income * 100 else 100)

/-- `create_mock_underwriting_decision` of `app.py` (lines 69-104),
restricted to the fields the claims mention. -/
def create_mock_underwriting_decision (a : ApplicationData) : MockDecision :=
  let risk_score := mockRiskScore a
  if 650 ≤ a.credit_score ∧ a.loan_amount * (0.2 : ℚ) ≤ a.annual_income ∧
      a.debt_to_income ≤ 40 then
    { decision := "approved"
      approved_amount := a.loan_amount
      interest_rate := some (max (3.5 : ℚ) ((8.0 : ℚ) - (a.credit_score - 600) / 50))
      risk_score := risk_score }
  else
    { decision := "rejected"
      approved_amount := 0
      interest_rate := none
      risk_score := risk_score }

/-- `calculate_risk_score` of `agent_bricks_integration.py` (lines 369-385):
the same risk expression, clamped by `min(max(total_risk, 300), 850)`. -/
def calculate_risk_score (a : ApplicationData) : ℚ :=
  let base_risk := 700 - a.credit_score
  let income_risk :=
    if 0 < a.annual_income then a.loan_amount / a.annual_income * 100 else 100
  let debt_risk := a.debt_to_income * 2
  let total_risk := base_risk + income_risk + debt_risk
  min (max total_risk 300) 850

/-- Decision dict returned by `make_underwriting_decision` in
`agent_bricks_integration.py`: the keys `status`, `amount` and `rate` are
always present (`rate` is the number `0` on rejection, not `None`). -/
structure FallbackDecision where
  status : String
  amount : ℚ
  rate : ℚ
deriving Repr, DecidableEq

/-- `make_underwriting_decision` of `agent_bricks_integration.py`
(lines 387-420).  The `risk_score` argument is accepted but not consulted,
exactly as in the source. -/
def make_underwriting_decision (a : ApplicationData) (risk_score : ℚ) :
    FallbackDecision :=
  if 650 ≤ a.credit_score ∧ a.loan_amount * (0.2 : ℚ) ≤ a.annual_income ∧
      a.debt_to_income ≤ 40 then
    { status := "approved"
      amount := a.loan_amount
      rate := max (3.5 : ℚ) ((8.0 : ℚ) - (a.credit_score - 600) / 50) }
  else
    { status := "rejected", amount := 0, rate := 0 }

/-- The payload fields of `_get_mock_responses` that flow into the final
result of `agent_bricks_underwrite`: the `credit_analyzer` response's
`risk_score` (a [0,1] value) and the `decision_maker` response's
`decision`, `approved_amount` and `interest_rate`.  The pipeline is
parameterised over these so that the rescaling law can be stated for any
stage output; the source's fixed payload is `sourceMockResponses`. -/
structure MockResponses where
  credit_risk_score : ℚ
  decision_status : String
  decision_amount : ℚ
  decision_rate : ℚ
deriving Repr, DecidableEq

/-- The hard-coded payloads of `_get_mock_responses` in
`agent_bricks_integration.py` (lines 199-236). -/
def sourceMockResponses : MockResponses :=
  { credit_risk_score := (0.25 : ℚ)
    decision_status := "Approved"
    decision_amount := 280000
    decision_rate := (4.25 : ℚ) }

/-- The result dict assembled at the end of `agent_bricks_underwrite`
(lines 347-355).  Every key is always present in the Python dict;
`interest_rate` is `Option ℚ` so that presence/absence can be compared
with the `app.py` record, and is `some _` on both paths here. -/
structure UnderwriteResult where
  decision : String
  approved_amount : ℚ
  interest_rate : Option ℚ
  risk_score : ℚ
  agent_details : List String
deriving Repr, DecidableEq

/-- The agents listed in the `agent_decisions` array built on the
successful orchestration path (lines 299-325). -/
def successAgentDetails : List String :=
  ["document_extractor", "credit_analyzer", "compliance_checker", "decision_maker"]

/-- ASCII lower-casing of one character, as Python's `str.lower` acts on
the status strings involved here. -/
def lowerChar (c : Char) : Char :=
  if 'A' ≤ c ∧ c ≤ 'Z' then Char.ofNat (c.toNat + 32) else c

/-- Python's `s.lower()` on the character list of `s`. -/
def lowerStr (s : String) : List Char :=
  s.toList.map lowerChar

/-- The `try` branch of `agent_bricks_underwrite` (lines 254-332): the
staged pipeline succeeds, every stage returns the mock payload `r`, and
the result is assembled from the final report.  `risk_score` is rescaled
from the credit-analysis stage's [0,1] value by `300 + v * 550`
(line 296). -/
def agentBricksSuccess (r : MockResponses) : UnderwriteResult :=
  { decision := if lowerStr r.decision_status = "approved".toList then "approved" else "rejected"
    approved_amount := r.decision_amount
    interest_rate := some r.decision_rate
    risk_score := 300 + r.credit_risk_score * 550
    agent_details := successAgentDetails }

/-- The `except` branch of `agent_bricks_underwrite` (lines 334-339): on
any stage failure the decision is recomputed by `calculate_risk_score`
and `make_underwriting_decision` on the raw application, with
`agent_decisions = []`. -/
def agentBricksFallback (a : ApplicationData) : UnderwriteResult :=
  let risk_score := calculate_risk_score a
  let final_decision := make_underwriting_decision a risk_score
  { decision := final_decision.status
    approved_amount := final_decision.amount
    interest_rate := some final_decision.rate
    risk_score := risk_score
    agent_details := [] }

/-- `agent_bricks_underwrite` of `agent_bricks_integration.py`
(lines 238-357).  `stageFails` is true when some stage of the
orchestration raises, selecting the `except` fallback branch. -/
def agent_bricks_underwrite (stageFails : Bool) (r : MockResponses)
    (a : ApplicationData) : UnderwriteResult :=
  if stageFails then agentBricksFallback a else agentBricksSuccess r

/-! ### `databricks_connection.py`: query retry -/

/-- Python's `needle in haystack` substring test on character lists. -/
def containsSub (needle : List Char) : List Char → Bool
  | [] => needle.isPrefixOf []
  | c :: t => needle.isPrefixOf (c :: t) || containsSub needle t

/-- The stale-session test of `execute_query` (line 242):
`"INVALID_STATE" in error_msg or "SessionHandle" in error_msg`. -/
def isStaleError (msg : String) : Bool :=
  containsSub "INVALID_STATE".toList msg.toList ||
    containsSub "SessionHandle".toList msg.toList

/-- One query attempt is either a result table or a raised exception,
carrying the exception's message string. -/
abbrev QueryOutcome (α : Type) := Except String α

/-- The `for attempt in range(retry_count + 1)` loop of `execute_query`
(lines 222-250).  `behavior attempt` is the outcome of attempt number
`attempt`; `remaining = retry_count - attempt` counts the attempts still
allowed.  The returned trace records, per attempt made, its index and the
`force_reconnect=(attempt > 0)` flag passed to `get_sql_connection`
(line 224).  A stale-session error with attempts remaining continues the
loop; every other error is re-raised at once. -/
def executeQueryLoop (behavior : ℕ → QueryOutcome α) :
    ℕ → ℕ → QueryOutcome α × List (ℕ × Bool)
  | attempt, remaining =>
    let entry : ℕ × Bool := (attempt, decide (0 < attempt))
    match behavior attempt with
    | .ok df => (.ok df, [entry])
    | .error e =>
      match remaining with
      | 0 => (.error e, [entry])
      | rem + 1 =>
        if isStaleError e then
          let tail := executeQueryLoop behavior (attempt + 1) rem
          (tail.1, entry :: tail.2)
        else
          (.error e, [entry])

/-- `execute_query` of `databricks_connection.py` (lines 217-250) with its
default `retry_count = 1`, as used by every caller in the repository. -/
def execute_query (behavior : ℕ → QueryOutcome α) :
    QueryOutcome α × List (ℕ × Bool) :=
  executeQueryLoop behavior 0 1

/-! ### `databricks_connection.py`: analytics -/

/-- Python's `round(x)`: round half to even, as applied to the averaged
metrics of `get_analytics_data`. -/
def pyRound0 (q : ℚ) : ℤ :=
  let f := ⌊q⌋
  let frac := q - f
  if frac < (1 : ℚ) / 2 then f
  else if (1 : ℚ) / 2 < frac then f + 1
  else if f % 2 = 0 then f else f + 1

/-- Python's `round(x, 1)`: one decimal place, half to even on the scaled
value. -/
def pyRound1 (q : ℚ) : ℚ :=
  (pyRound0 (q * 10) : ℚ) / 10

/-- One persisted `loan_applications` row, restricted to the columns the
analytics queries read.  `day` abstracts `DATE(application_timestamp)`
as a day number, so the `CURRENT_DATE() - INTERVAL n DAYS` windows become
integer comparisons. -/
structure AppRow where
  day : ℤ
  decision : String
  credit_score : ℚ
  processing_time_seconds : ℚ
deriving Repr, DecidableEq

/-- Rows whose timestamp lies in the trailing `d`-day window
(`application_timestamp >= CURRENT_DATE() - INTERVAL d DAYS`). -/
def windowRows (rows : List AppRow) (today d : ℤ) : List AppRow :=
  rows.filter (fun r => decide (today - d ≤ r.day))

/-- Result rows of the today-count query (lines 392-395): a single
`COUNT(*)` row over the rows dated today. -/
def todayCountQuery (rows : List AppRow) (today : ℤ) : List ℤ :=
  [((rows.filter (fun r => decide (r.day = today))).length : ℤ)]

/-- Result rows of the approval-rate query (lines 398-404): one row
`(total, approved)` over the 30-day window.  `SUM` over zero rows is SQL
`NULL`, hence the `Option`; over a nonempty window it is the count of
rows with `decision = 'approved'`. -/
def approvalQuery (rows : List AppRow) (today : ℤ) : List (ℤ × Option ℤ) :=
  let w := windowRows rows today 30
  [((w.length : ℤ),
    if w.isEmpty then none
    else some ((w.filter (fun r => decide (r.decision = "approved"))).length : ℤ))]

/-- Result rows of the average-processing-time query (lines 407-411): one
`AVG` row over the 7-day window; `AVG` over zero rows is `NULL`. -/
def processingTimeQuery (rows : List AppRow) (today : ℤ) : List (Option ℚ) :=
  let w := windowRows rows today 7
  [if w.isEmpty then none
   else some ((w.map (fun r => r.processing_time_seconds)).sum / (w.length : ℚ))]

/-- Result rows of the average-credit-score query (lines 414-418): one
`AVG` row over the 30-day window. -/
def creditScoreQuery (rows : List AppRow) (today : ℤ) : List (Option ℚ) :=
  let w := windowRows rows today 30
  [if w.isEmpty then none
   else some ((w.map (fun r => r.credit_score)).sum / (w.length : ℚ))]

/-- The analytics dict returned by `get_analytics_data`. -/
structure AnalyticsSummary where
  today_applications : ℤ
  approval_rate : ℚ
  avg_processing_time : ℚ
  avg_credit_score : ℤ
deriving Repr, DecidableEq

/-- The default metrics returned by the `except` branch of
`get_analytics_data` (lines 445-450). -/
def analyticsDefaults : AnalyticsSummary :=
  { today_applications := 0, approval_rate := 0, avg_processing_time := 0
    avg_credit_score := 0 }

/-- Python truthiness applied to an `AVG` cell: `None` and `0.0` are
falsy, so `x if ... and x else 0` yields `0` for both. -/
def truthyOr0 : Option ℚ → ℚ
  | none => 0
  | some v => if v = 0 then 0 else v

/-- The metric assembly of `get_analytics_data` (lines 420-440) from the
four query results: first-row extraction with empty-frame defaults, the
`total > 0` guard on the approval rate, truthiness guards on the two
averages, and the `round` calls of the returned dict. -/
def analyticsCombine (today_count : List ℤ) (approval_data : List (ℤ × Option ℤ))
    (processing_time : List (Option ℚ)) (credit_score : List (Option ℚ)) :
    AnalyticsSummary :=
  let today_applications : ℤ :=
    match today_count with
    | [] => 0
    | c :: _ => c
  let approval_rate : ℚ :=
    match approval_data with
    | [] => 0
    | (total, approved) :: _ =>
      if 0 < total then ((approved.getD 0 : ℤ) : ℚ) / (total : ℚ) * 100 else 0
  let avg_processing_time : ℚ :=
    match processing_time with
    | [] => 0
    | v :: _ => truthyOr0 v
  let avg_credit_score : ℚ :=
    match credit_score with
    | [] => 0
    | v :: _ => truthyOr0 v
  { today_applications := today_applications
    approval_rate := pyRound1 approval_rate
    avg_processing_time := pyRound1 avg_processing_time
    avg_credit_score := pyRound0 avg_credit_score }

/-- `get_analytics_data` of `databricks_connection.py` (lines 388-450) on
the success path: the four queries evaluated against the store's rows,
then combined. -/
def get_analytics_data (rows : List AppRow) (today : ℤ) : AnalyticsSummary :=
  analyticsCombine (todayCountQuery rows today) (approvalQuery rows today)
    (processingTimeQuery rows today) (creditScoreQuery rows today)

/-- `get_analytics_data` with its `try/except`: each query's outcome is
given by an oracle (a raised exception anywhere inside the `try` block
lands in the `except` branch, which returns `analyticsDefaults`). -/
def getAnalyticsDataSafe (q1 : QueryOutcome (List ℤ))
    (q2 : QueryOutcome (List (ℤ × Option ℤ)))
    (q3 : QueryOutcome (List (Option ℚ)))
    (q4 : QueryOutcome (List (Option ℚ)))
    : AnalyticsSummary :=
  match q1, q2, q3, q4 with
  | .ok a, .ok b, .ok c, .ok d => analyticsCombine a b c d
  | _, _, _, _ => analyticsDefaults

/-- A connection behavior whose first attempt raises a stale-session
error and whose second attempt succeeds with an empty table. -/
def staleDemoBehavior : ℕ → QueryOutcome (List (List ℚ)) :=
  fun n => if n = 0 then .error "[INVALID_STATE] session expired" else .ok []

/-! ## Theorems -/

/-- Claim C1: for every application, both decision functions
(`make_underwriting_decision` and `create_mock_underwriting_decision`)
approve exactly when `credit_score >= 650`, `annual_income >= 0.2 *
loan_amount` and `debt_to_income_ratio <= 40`, and whenever they approve,
the approved amount equals the requested `loan_amount`. -/
theorem decision_approved_iff_thresholds (a : ApplicationData) (rs : ℚ) :
    ((make_underwriting_decision a rs).status = "approved" ↔
      650 ≤ a.credit_score ∧ (0.2 : ℚ) * a.loan_amount ≤ a.annual_income ∧
        a.debt_to_income ≤ 40) ∧
    ((make_underwriting_decision a rs).status = "approved" →
      (make_underwriting_decision a rs).amount = a.loan_amount) ∧
    ((create_mock_underwriting_decision a).decision = "approved" ↔
      650 ≤ a.credit_score ∧ (0.2 : ℚ) * a.loan_amount ≤ a.annual_income ∧
        a.debt_to_income ≤ 40) ∧
    ((create_mock_underwriting_decision a).decision = "approved" →
      (create_mock_underwriting_decision a).approved_amount = a.loan_amount) := by
  have hcomm : (0.2 : ℚ) * a.loan_amount = a.loan_amount * (0.2 : ℚ) :=
    mul_comm _ _
  rw [hcomm]
  by_cases h : 650 ≤ a.credit_score ∧ a.loan_amount * (0.2 : ℚ) ≤ a.annual_income ∧
      a.debt_to_income ≤ 40
  · simp [make_underwriting_decision, create_mock_underwriting_decision, h]
  · simp [make_underwriting_decision, create_mock_underwriting_decision, h]

/-- Witness for C1 at `credit_score=750, annual_income=80000,
loan_amount=200000, debt_to_income_ratio=25`. -/
theorem decision_approved_iff_thresholds_check :
    (make_underwriting_decision ⟨750, 80000, 200000, 25⟩ 300).amount = 200000 :=
  (decision_approved_iff_thresholds ⟨750, 80000, 200000, 25⟩ 300).2.1
    (by norm_num [make_underwriting_decision])

/-- Counterexample to claim C2: the scoring-function fallback path of
`agent_bricks_underwrite` produces a rejected record whose
`interest_rate` key is present with value `0`, not absent (`app.py`'s
mock engine uses `None`, but `make_underwriting_decision` returns
`"rate": 0`). -/
theorem rejected_fallback_rate_present :
    (agent_bricks_underwrite true sourceMockResponses
        ⟨600, 50000, 10000, 25⟩).decision = "rejected" ∧
    (agent_bricks_underwrite true sourceMockResponses
        ⟨600, 50000, 10000, 25⟩).interest_rate ≠ none := by
  norm_num [agent_bricks_underwrite, agentBricksFallback, make_underwriting_decision,
    calculate_risk_score]
  simp

/-- Claim C2 as amended: on every decision path, a rejected record has
`approved_amount = 0`; `interest_rate` is absent (`None`) on the mock
engine path but present with value `0` on the scoring-function fallback
path; and the multi-agent result mapping never yields a rejected record
with the source's hard-coded stage payloads. -/
theorem rejected_records_amount_zero (a : ApplicationData) (r : MockResponses) :
    ((create_mock_underwriting_decision a).decision = "rejected" →
      (create_mock_underwriting_decision a).approved_amount = 0 ∧
      (create_mock_underwriting_decision a).interest_rate = none) ∧
    ((agent_bricks_underwrite true r a).decision = "rejected" →
      (agent_bricks_underwrite true r a).approved_amount = 0 ∧
      (agent_bricks_underwrite true r a).interest_rate = some 0) ∧
    (agent_bricks_underwrite false sourceMockResponses a).decision ≠ "rejected" := by
  refine ⟨?_, ?_,
    (by decide : (agentBricksSuccess sourceMockResponses).decision ≠ "rejected")⟩
  · by_cases h : 650 ≤ a.credit_score ∧ a.loan_amount * (0.2 : ℚ) ≤ a.annual_income ∧
        a.debt_to_income ≤ 40
    · simp [create_mock_underwriting_decision, h]
    · simp [create_mock_underwriting_decision, h]
  · by_cases h : 650 ≤ a.credit_score ∧ a.loan_amount * (0.2 : ℚ) ≤ a.annual_income ∧
        a.debt_to_income ≤ 40
    · simp [agent_bricks_underwrite, agentBricksFallback, make_underwriting_decision, h]
    · simp [agent_bricks_underwrite, agentBricksFallback, make_underwriting_decision, h]

/-- Witness for amended C2 at a rejected fallback input. -/
theorem rejected_records_amount_zero_check :
    (agent_bricks_underwrite true sourceMockResponses
        ⟨600, 50000, 10000, 25⟩).approved_amount = 0 ∧
    (agent_bricks_underwrite true sourceMockResponses
        ⟨600, 50000, 10000, 25⟩).interest_rate = some 0 :=
  (rejected_records_amount_zero ⟨600, 50000, 10000, 25⟩ sourceMockResponses).2.1
    (by norm_num [agent_bricks_underwrite, agentBricksFallback,
      make_underwriting_decision, calculate_risk_score])

/-- Counterexample to claim C3: the mock decision engine of `app.py`
computes its risk score without any clamp, so at `credit_score=650,
annual_income=1, loan_amount=10000000, debt_to_income_ratio=25` the
produced risk score is far above 850. -/
theorem mock_risk_score_exceeds_bound :
    850 < (create_mock_underwriting_decision ⟨650, 1, 10000000, 25⟩).risk_score := by
  norm_num [create_mock_underwriting_decision, mockRiskScore]

/-- Claim C3 as amended: `calculate_risk_score` (the scoring-function
path) is clamped to [300, 850] for every input, and the multi-agent
success path's rescaled risk score also lies in [300, 850]; the mock
engine of `app.py` does not clamp its risk score. -/
theorem calculate_risk_score_clamped (a : ApplicationData) :
    300 ≤ calculate_risk_score a ∧ calculate_risk_score a ≤ 850 ∧
    300 ≤ (agent_bricks_underwrite false sourceMockResponses a).risk_score ∧
    (agent_bricks_underwrite false sourceMockResponses a).risk_score ≤ 850 := by
  refine ⟨?_, ?_,
    (by norm_num [agentBricksSuccess, sourceMockResponses] :
      (300 : ℚ) ≤ (agentBricksSuccess sourceMockResponses).risk_score),
    (by norm_num [agentBricksSuccess, sourceMockResponses] :
      (agentBricksSuccess sourceMockResponses).risk_score ≤ 850)⟩
  · exact le_min (le_max_right _ _) (by norm_num)
  · exact min_le_right _ _

/-- Claim C4: whenever a stage of the multi-agent orchestration raises,
`agent_bricks_underwrite` returns the Scoring Function's output on the
raw application — `risk_score` from `calculate_risk_score`, status and
amount from `make_underwriting_decision` — with an empty `agent_details`
list. -/
theorem fallback_matches_scoring_function (r : MockResponses) (a : ApplicationData) :
    (agent_bricks_underwrite true r a).risk_score = calculate_risk_score a ∧
    (agent_bricks_underwrite true r a).decision =
      (make_underwriting_decision a (calculate_risk_score a)).status ∧
    (agent_bricks_underwrite true r a).approved_amount =
      (make_underwriting_decision a (calculate_risk_score a)).amount ∧
    (agent_bricks_underwrite true r a).agent_details = [] :=
  ⟨rfl, rfl, rfl, rfl⟩

/-- Claim C5: on a successful pipeline run the returned `risk_score` is
`300 + v * 550` where `v` is the credit-analysis stage's [0,1] risk
value; on the fallback path the Scoring Function's [300,850] value is
used directly, with no second rescaling. -/
theorem risk_score_rescaling (r : MockResponses) (a : ApplicationData) :
    (agent_bricks_underwrite false r a).risk_score =
      300 + r.credit_risk_score * 550 ∧
    (agent_bricks_underwrite true r a).risk_score = calculate_risk_score a :=
  ⟨rfl, rfl⟩

/-- Claim C6: a query whose first attempt fails with a stale-session
error (message containing `INVALID_STATE` or `SessionHandle`) is retried
exactly once with `force_reconnect = True`, and the second attempt's
outcome (success or failure) is surfaced; a first attempt failing with
any other error is surfaced at once, with no retry. -/
theorem stale_query_retried_once (behavior : ℕ → QueryOutcome (List (List ℚ)))
    (e : String) (h : behavior 0 = .error e) :
    (isStaleError e = true →
      (execute_query behavior).2 = [(0, false), (1, true)] ∧
      (execute_query behavior).1 = behavior 1) ∧
    (isStaleError e = false →
      (execute_query behavior).2 = [(0, false)] ∧
      (execute_query behavior).1 = .error e) := by
  constructor
  · intro hs
    cases hb : behavior 1 with
    | ok df => simp [execute_query, executeQueryLoop, h, hb, hs]
    | error e2 => simp [execute_query, executeQueryLoop, h, hb, hs]
  · intro hs
    simp [execute_query, executeQueryLoop, h, hs]

/-- Witness for C6: a first attempt raising `[INVALID_STATE] session
expired` is retried once with a forced reconnect and the second
attempt's empty table is returned. -/
theorem stale_query_retried_once_check :
    (isStaleError "[INVALID_STATE] session expired" = true →
      (execute_query staleDemoBehavior).2 = [(0, false), (1, true)] ∧
      (execute_query staleDemoBehavior).1 = staleDemoBehavior 1) ∧
    (isStaleError "[INVALID_STATE] session expired" = false →
      (execute_query staleDemoBehavior).2 = [(0, false)] ∧
      (execute_query staleDemoBehavior).1 =
        .error "[INVALID_STATE] session expired") :=
  stale_query_retried_once staleDemoBehavior "[INVALID_STATE] session expired" rfl

/-- Claim C7: when the 30-day `loan_applications` window holds no rows
(hence every window the analytics queries read is empty),
`get_analytics_data` returns the all-zero default metrics; the embedding
is a total function, so no exception is raised. -/
theorem analytics_empty_window_defaults (rows : List AppRow) (today : ℤ)
    (h : windowRows rows today 30 = []) :
    get_analytics_data rows today = analyticsDefaults := by
  have h30 : ∀ r ∈ rows, ¬(today - 30 ≤ r.day) := by
    intro r hr
    have hmem := List.filter_eq_nil_iff.mp h r hr
    simpa using hmem
  have htoday : rows.filter (fun r => decide (r.day = today)) = [] := by
    apply List.filter_eq_nil_iff.mpr
    intro r hr
    simp only [decide_eq_true_eq]
    intro hd
    exact h30 r hr (by omega)
  have h7 : windowRows rows today 7 = [] := by
    apply List.filter_eq_nil_iff.mpr
    intro r hr
    simp only [decide_eq_true_eq]
    intro hd
    exact h30 r hr (by omega)
  unfold get_analytics_data todayCountQuery approvalQuery processingTimeQuery
    creditScoreQuery
  rw [h, h7, htoday]
  norm_num [analyticsCombine, truthyOr0, pyRound1, pyRound0, analyticsDefaults]

/-- Witness for C7: the empty store yields the zero defaults. -/
theorem analytics_empty_window_defaults_check :
    get_analytics_data [] 0 = analyticsDefaults :=
  analytics_empty_window_defaults [] 0 rfl

/-- Claim C8: at `credit_score=750, annual_income=80000,
loan_amount=200000, debt_to_income_ratio=25`, both decision functions
approve with amount 200000 and interest rate 5.0. -/
theorem example_approved_rate_five :
    (make_underwriting_decision ⟨750, 80000, 200000, 25⟩
        (calculate_risk_score ⟨750, 80000, 200000, 25⟩)).status = "approved" ∧
    (make_underwriting_decision ⟨750, 80000, 200000, 25⟩
        (calculate_risk_score ⟨750, 80000, 200000, 25⟩)).amount = 200000 ∧
    (make_underwriting_decision ⟨750, 80000, 200000, 25⟩
        (calculate_risk_score ⟨750, 80000, 200000, 25⟩)).rate = 5 ∧
    (create_mock_underwriting_decision ⟨750, 80000, 200000, 25⟩).decision
        = "approved" ∧
    (create_mock_underwriting_decision ⟨750, 80000, 200000, 25⟩).approved_amount
        = 200000 ∧
    (create_mock_underwriting_decision ⟨750, 80000, 200000, 25⟩).interest_rate
        = some 5 := by
  norm_num [make_underwriting_decision, create_mock_underwriting_decision,
    max_def]

/-- Claim C9: whenever the multi-agent orchestration completes without
raising, `agent_bricks_underwrite` returns the same record for every
application, because every stage returns the fixed mock payload:
approved, amount 280000, rate 4.25, risk score 437.5 = 300 + 0.25*550. -/
theorem success_path_constant (a : ApplicationData) :
    (agent_bricks_underwrite false sourceMockResponses a).decision = "approved" ∧
    (agent_bricks_underwrite false sourceMockResponses a).approved_amount
        = 280000 ∧
    (agent_bricks_underwrite false sourceMockResponses a).interest_rate
        = some (4.25 : ℚ) ∧
    (agent_bricks_underwrite false sourceMockResponses a).risk_score
        = (437.5 : ℚ) ∧
    (437.5 : ℚ) = 300 + (0.25 : ℚ) * 550 := by
  refine ⟨rfl, rfl, rfl, ?_, by norm_num⟩
  exact (by norm_num [agentBricksSuccess, sourceMockResponses] :
    (agentBricksSuccess sourceMockResponses).risk_score = (437.5 : ℚ))

/-- Claim C10: `get_analytics_data` returns the zeroed default metrics
whenever any of its four queries fails, and by totality of the embedding
it never propagates an exception to the caller. -/
theorem analytics_failure_defaults (q1 : QueryOutcome (List ℤ))
    (q2 : QueryOutcome (List (ℤ × Option ℤ)))
    (q3 : QueryOutcome (List (Option ℚ)))
    (q4 : QueryOutcome (List (Option ℚ)))
    (h : q1.isOk = false ∨ q2.isOk = false ∨ q3.isOk = false ∨ q4.isOk = false) :
    getAnalyticsDataSafe q1 q2 q3 q4 = analyticsDefaults := by
  cases q1 <;> cases q2 <;> cases q3 <;> cases q4 <;>
    simp_all [getAnalyticsDataSafe, Except.isOk, Except.toBool]

/-- Witness for C10: a failing first query yields the defaults. -/
theorem analytics_failure_defaults_check :
    getAnalyticsDataSafe (.error "Failed to get analytics data") (.ok [])
      (.ok []) (.ok []) = analyticsDefaults :=
  analytics_failure_defaults (.error "Failed to get analytics data") (.ok [])
    (.ok []) (.ok []) (Or.inl rfl)

end LoanApp
